import Mathlib

/-!
Verification of the BookMyShow booking core (bms-lambda) against its
natural-language specification.

Shallow embedding conventions:
- Redis is modelled as functions from key strings to optional entries.  Seat
  locks live under keys built exactly as the Lua scripts build them
  (`seat_lock:<showId>:<seatId>`), hold records under `hold:<holdId>`.
- The two Lua scripts (`LOCK_SEATS_SCRIPT`, `RELEASE_SEATS_SCRIPT`) run
  atomically on the Redis server; they are translated as pure functions from a
  store to a store plus result.
- Wall-clock time is an integer parameter `now` (seconds).  A Redis key written
  with TTL `t` at time `now` carries its absolute expiry instant `now + t`;
  a read at time `r` sees the key iff `r` is before that instant.
- PostgreSQL is a record of a `shows` table and an `orders` table (lists of
  rows); queries are translated row by row from the SQL in db_service.py.
- Fault-free model: network, timeout and exception paths that represent
  infrastructure failure (REDIS_ERROR, connection loss) are out of scope.
  Exceptions that the code itself necessarily raises on ordinary input
  (a missing named SQL parameter, a call to a method that does not exist)
  are modelled explicitly, because the handlers catch them and turn them
  into HTTP 500 responses.
- Character case conversion (Python `str.lower` / `str.upper`) is modelled on
  the ASCII range; every identifier this system manipulates is ASCII.
-/

namespace BMS

/-! ASCII character classes used by the validator regexes (utils/validators.py). -/

/-- The regex class `[0-9]` (also `\d` on the ASCII inputs at hand). -/
def isDigitA (c : Char) : Bool := decide ('0' ≤ c) && decide (c ≤ '9')

/-- The regex class `[A-Z]`. -/
def isUpperA (c : Char) : Bool := decide ('A' ≤ c) && decide (c ≤ 'Z')

/-- The regex class `[a-z]`. -/
def isLowerA (c : Char) : Bool := decide ('a' ≤ c) && decide (c ≤ 'z')

/-- The regex class `[a-zA-Z]`. -/
def isAlphaA (c : Char) : Bool := isUpperA c || isLowerA c

/-- The regex class `[0-9a-f]` of the UUID pattern (applied after lowering). -/
def hexLower (c : Char) : Bool := isDigitA c || (decide ('a' ≤ c) && decide (c ≤ 'f'))

/-- Uppercase hexadecimal digit, `[0-9A-F]`: the character class the spec asserts
for the eight characters of a ticket code after the `BMS` marker. -/
def isUpperHex (c : Char) : Bool := isDigitA c || (decide ('A' ≤ c) && decide (c ≤ 'F'))

/-- Python `str.lower` on one character, ASCII range. -/
def lowerChar (c : Char) : Char := if isUpperA c then Char.ofNat (c.toNat + 32) else c

/-- Python `str.upper` on one character, ASCII range. -/
def upperChar (c : Char) : Char := if isLowerA c then Char.ofNat (c.toNat - 32) else c

/-- Python `str.upper` on a string (ASCII range). -/
def pyUpper (s : String) : String := String.mk (s.data.map upperChar)

/-- Python re `$` at this point of a pattern: the remaining input is empty or a
single trailing newline (re `$` also matches just before a final newline). -/
def endDollar (l : List Char) : Bool := decide (l = []) || decide (l = ['\n'])

/-! Configuration defaults (utils/config.py). -/

/-- `HOLD_TTL_SECONDS` default (300 s). -/
def HOLD_TTL_SECONDS : Int := 300

/-- `ORDER_TTL_SECONDS` default (300 s). -/
def ORDER_TTL_SECONDS : Int := 300

namespace BMSValidator

/-- One step of the UUID regex: `n` hexadecimal characters.  Returns the rest of
the input on success.  The pattern piece has fixed width, so greedy matching
needs no backtracking. -/
def takeHex (n : Nat) (l : List Char) : Option (List Char) :=
  if (l.take n).length = n ∧ (l.take n).all BMS.hexLower = true then some (l.drop n) else none

/-- One literal character of a regex. -/
def expectChar (c : Char) : List Char → Option (List Char)
  | x :: rest => if x = c then some rest else none
  | [] => none

/-- The UUID variant class `[89ab]`. -/
def expectVariantChar : List Char → Option (List Char)
  | x :: rest => if x = '8' ∨ x = '9' ∨ x = 'a' ∨ x = 'b' then some rest else none
  | [] => none

/-- The body of `BMSValidator.validate_uuid`s pattern
`[0-9a-f]-groups 8-4-4(starting 4)-4(starting [89ab])-12`, consumed left to
right; `none` when some group fails. -/
def uuidScan (s : List Char) : Option (List Char) :=
  (((((((((takeHex 8 s).bind (expectChar '-')).bind (takeHex 4)).bind
    (expectChar '-')).bind (expectChar '4')).bind (takeHex 3)).bind
    (expectChar '-')).bind expectVariantChar).bind (takeHex 3)).bind
    (expectChar '-') |>.bind (takeHex 12)

/-- `BMSValidator.validate_uuid`: the version-4 UUID regex matched against
`value.lower()`. -/
def validate_uuid (value : String) : Bool :=
  match uuidScan (value.data.map BMS.lowerChar) with
  | some r => BMS.endDollar r
  | none => false

/-- `BMSValidator.validate_email`s local-part class `[a-zA-Z0-9._%+-]`. -/
def isEmailLocalChar (c : Char) : Bool :=
  BMS.isAlphaA c || BMS.isDigitA c || decide (c = '.') || decide (c = '_') ||
    decide (c = '%') || decide (c = '+') || decide (c = '-')

/-- `BMSValidator.validate_email`s domain class `[a-zA-Z0-9.-]`. -/
def isEmailDomainChar (c : Char) : Bool :=
  BMS.isAlphaA c || BMS.isDigitA c || decide (c = '.') || decide (c = '-')

/-- The tail `[a-zA-Z]{2,}$` of the email pattern. -/
def emailTld (l : List Char) : Bool :=
  match l.getLast? with
  | some '\n' => decide (2 ≤ l.dropLast.length) && l.dropLast.all BMS.isAlphaA
  | _ => decide (2 ≤ l.length) && l.all BMS.isAlphaA

/-- The part of the email pattern after `@`: `[a-zA-Z0-9.-]+\.[a-zA-Z]{2,}$`.
The regex may split at any dot (backtracking), so every candidate split is
tried: `acc` is the prefix consumed so far. -/
def emailDomain (acc : List Char) : List Char → Bool
  | [] => false
  | c :: rest =>
    if c = '.' then
      (decide (acc ≠ []) && acc.all isEmailDomainChar && emailTld rest) ||
        emailDomain (acc ++ [c]) rest
    else emailDomain (acc ++ [c]) rest

/-- `BMSValidator.validate_email`: `^[a-zA-Z0-9._%+-]+@[a-zA-Z0-9.-]+\.[a-zA-Z]{2,}$`. -/
def validate_email (email : String) : Bool :=
  let l := email.data
  let localPart := l.takeWhile (fun c => c != '@')
  match l.drop localPart.length with
  | '@' :: dom => decide (localPart ≠ []) && localPart.all isEmailLocalChar && emailDomain [] dom
  | _ => false

/-- Python `str.replace` of the three-character substring `+91` by the empty
string: a left-to-right scan removing non-overlapping occurrences. -/
def removePlus91 : List Char → List Char
  | '+' :: '9' :: '1' :: rest => removePlus91 rest
  | c :: rest => c :: removePlus91 rest
  | [] => []

/-- `BMSValidator.validate_phone`: strip `+91`, spaces and dashes, then match
`^[6-9]\d{9}$`. -/
def validate_phone (phone : String) : Bool :=
  let l := (removePlus91 phone.data).filter (fun c => c != ' ') |>.filter (fun c => c != '-')
  match l with
  | c :: rest =>
    let ds := rest.takeWhile BMS.isDigitA
    decide ('6' ≤ c) && decide (c ≤ '9') && decide (ds.length = 9) &&
      BMS.endDollar (rest.drop ds.length)
  | [] => false

/-- One seat identifier against `^[A-Z]\d{1,2}$` (re.match inside
`validate_seat_ids`). -/
def seatIdOk (s : String) : Bool :=
  match s.data with
  | c :: rest =>
    let ds := rest.takeWhile BMS.isDigitA
    BMS.isUpperA c && decide (1 ≤ ds.length) && decide (ds.length ≤ 2) &&
      BMS.endDollar (rest.drop ds.length)
  | [] => false

/-- `BMSValidator.validate_seat_ids`: every entry matches the seat pattern. -/
def validate_seat_ids (seatIds : List String) : Bool := seatIds.all seatIdOk

/-- Outcome of a validator that raises `ValidationError` on bad input. -/
inductive Validation where
  | ok
  | error (msg : String)
deriving DecidableEq

/-- `BMSValidator.validate_hold_request` on a JSON body whose three required
fields are present with their expected shapes (field presence and type checks
are the decode boundary and are not claim-relevant here).  The checks run in
source order; note that no check rejects duplicate entries of `seatIds`. -/
def validate_hold_request (showId : String) (seatIds : List String) (quantity : Int) :
    Validation :=
  if !validate_uuid showId then .error "Invalid showId format"
  else if seatIds.length = 0 then .error "seatIds must be a non-empty list"
  else if !validate_seat_ids seatIds then .error "Invalid seat ID format"
  else if quantity ≠ (seatIds.length : Int) then .error "Quantity must match number of seat IDs"
  else if quantity > 10 then .error "Cannot book more than 10 seats"
  else .ok

end BMSValidator

/-- Customer block of a create-order body. -/
structure Customer where
  name : String
  email : String
  phone : String
deriving DecidableEq

/-- `BMSValidator.validate_order_request` on a body with `holdId` and a customer
record present (presence checks elided as above). -/
def BMSValidator.validate_order_request (holdId : String) (c : Customer) :
    BMSValidator.Validation :=
  if !BMSValidator.validate_uuid holdId then .error "Invalid holdId format"
  else if !BMSValidator.validate_email c.email then .error "Invalid email format"
  else if !BMSValidator.validate_phone c.phone then .error "Invalid phone number format"
  else .ok

namespace RedisService

/-- One Redis string entry under a seat-lock key: the stored value and the TTL
argument of the `SET key value EX ttl` that last wrote it. -/
structure LockEntry where
  value : String
  ttl : Int
deriving DecidableEq

/-- The seat-lock key the scripts build: `"seat_lock:" .. showId .. ":" .. seatId`. -/
def seatLockKey (showId seatId : String) : String :=
  "seat_lock:" ++ showId ++ ":" ++ seatId

/-- The seat-lock keyspace of Redis. -/
abbrev LockStore := String → Option LockEntry

/-- The value `LOCK_SEATS_SCRIPT` stores: `userId .. ":" .. holdId`. -/
def lockValue (userId holdId : String) : String := userId ++ ":" ++ holdId

/-- `string.match(existing, "^([^:]+)")` of both Lua scripts: the longest
nonempty prefix of non-colon characters — the userId component of a stored
lock value.  `none` models the nil Lua returns when no character matches
(the subsequent comparison with the callers userId is then a mismatch). -/
def parseOwner (s : String) : Option String :=
  match s.data.takeWhile (fun c => c != ':') with
  | [] => none
  | p => some (String.mk p)

/-- Decoded reply of `LOCK_SEATS_SCRIPT`: `success = true` with holdId, seats
and expiresIn, or `success = false, error = "SEAT_TAKEN"` naming a seat. -/
inductive LockResult where
  | ok (holdId : String) (seats : List String) (expiresIn : Int)
  | seatTaken (seat : String)
deriving DecidableEq

/-- Phase 1 of `LOCK_SEATS_SCRIPT`: scan KEYS in order and return the first
seat whose existing lock has an owner different from the caller. -/
def findTakenSeat (st : LockStore) (showId userId : String) : List String → Option String
  | [] => none
  | seatId :: rest =>
    match st (seatLockKey showId seatId) with
    | none => findTakenSeat st showId userId rest
    | some e =>
      if parseOwner e.value = some userId then findTakenSeat st showId userId rest
      else some seatId

/-- Phase 2 of `LOCK_SEATS_SCRIPT`: `SET key lockValue EX ttl` for every seat,
in order. -/
def writeLocks (showId lockVal : String) (ttl : Int) : List String → LockStore → LockStore
  | [], st => st
  | seatId :: rest, st =>
    writeLocks showId lockVal ttl rest
      (fun k => if k = seatLockKey showId seatId then some ⟨lockVal, ttl⟩ else st k)

/-- `RedisService.lock_seats_atomic` running `LOCK_SEATS_SCRIPT` atomically:
check every seat first, then (only if no conflict) write every seat. -/
def lock_seats_atomic (st : LockStore) (showId userId : String) (seatIds : List String)
    (holdId : String) (ttl : Int) : LockResult × LockStore :=
  match findTakenSeat st showId userId seatIds with
  | some seatId => (.seatTaken seatId, st)
  | none => (.ok holdId seatIds ttl, writeLocks showId (lockValue userId holdId) ttl seatIds st)

/-- `RELEASE_SEATS_SCRIPT`, seat by seat: delete a lock only when its parsed
owner equals the caller, collecting the seats actually deleted. -/
def releaseSeatsGo (showId userId : String) : List String → LockStore → LockStore × List String
  | [], st => (st, [])
  | seatId :: rest, st =>
    match st (seatLockKey showId seatId) with
    | some e =>
      if parseOwner e.value = some userId then
        let r := releaseSeatsGo showId userId rest
          (fun k => if k = seatLockKey showId seatId then none else st k)
        (r.1, seatId :: r.2)
      else releaseSeatsGo showId userId rest st
    | none => releaseSeatsGo showId userId rest st

/-- `RedisService.release_seats_atomic` running `RELEASE_SEATS_SCRIPT`
atomically; returns the new store and the `released` list of the reply. -/
def release_seats_atomic (st : LockStore) (showId userId : String) (seatIds : List String) :
    LockStore × List String :=
  releaseSeatsGo showId userId seatIds st

/-- The script conflict test for one seat: a lock exists and its parsed owner
is not the caller (`existingUserId ~= userId`, nil counting as mismatch). -/
def seatConflicts (st : LockStore) (showId userId seatId : String) : Bool :=
  match st (seatLockKey showId seatId) with
  | none => false
  | some e => decide (parseOwner e.value ≠ some userId)

/-- The caller owns the existing lock under key `k`. -/
def lockOwnedAt (st : LockStore) (k userId : String) : Bool :=
  match st k with
  | none => false
  | some e => decide (parseOwner e.value = some userId)

/-- A stored hold record (the JSON under `hold:<holdId>`), with timestamps as
integer seconds. -/
structure HoldData where
  hold_id : String
  show_id : String
  user_id : String
  seat_ids : List String
  quantity : Int
  status : String
  created_at : Int
  expires_at : Int
deriving DecidableEq

/-- One Redis entry under a hold key: the record and the absolute instant at
which the key expires (`SETEX` at time `now` with TTL `t` yields `now + t`). -/
structure HoldEntry where
  data : HoldData
  keyExpiresAt : Int
deriving DecidableEq

/-- The hold keyspace of Redis. -/
abbrev HoldStore := String → Option HoldEntry

/-- The hold key: `"hold:" ++ holdId`. -/
def holdKey (holdId : String) : String := "hold:" ++ holdId

/-- `RedisService.store_hold`: `SETEX hold:<id> HOLD_TTL_SECONDS <json>` at time
`now`.  The TTL written is always the full `HOLD_TTL_SECONDS`, never the
residual life of an existing hold under the same key. -/
def store_hold (hs : HoldStore) (now : Int) (d : HoldData) : HoldStore :=
  fun k => if k = holdKey d.hold_id then some ⟨d, now + BMS.HOLD_TTL_SECONDS⟩ else hs k

/-- `RedisService.get_hold` at time `now`: `none` on a missing or TTL-expired
key (indistinguishable by design). -/
def get_hold (hs : HoldStore) (now : Int) (holdId : String) : Option HoldData :=
  match hs (holdKey holdId) with
  | some e => if now < e.keyExpiresAt then some e.data else none
  | none => none

/-- `RedisService.delete_hold`. -/
def delete_hold (hs : HoldStore) (holdId : String) : HoldStore :=
  fun k => if k = holdKey holdId then none else hs k

end RedisService

/-! Durable store rows (PostgreSQL, db_service.py). -/

/-- A row of `shows` joined with its theatre and movie names, as
`DatabaseService.get_show_by_id` returns it.  `start_time` and `price` are
optional because the handlers guard them with truthiness checks. -/
structure ShowRow where
  show_id : String
  movie_id : String
  theatre_id : String
  start_time : Option Int
  price : Option Int
  status : String
  theatre_name : String
  movie_title : String
deriving DecidableEq

/-- A row of `orders`. -/
structure OrderRow where
  order_id : String
  hold_id : String
  user_id : String
  show_id : String
  movie_id : String
  theatre_id : String
  seat_ids : List String
  customer_name : String
  customer_email : String
  customer_phone : String
  amount : Int
  status : String
  ticket_code : Option String
  created_at : Int
  expires_at : Int
  updated_at : Option Int
deriving DecidableEq

/-- The durable store: the two tables the booking core touches. -/
structure Database where
  shows : List ShowRow
  orders : List OrderRow
deriving DecidableEq

/-- A value bound to a named SQL parameter (the order_data dict entries). -/
inductive DbValue where
  | str (s : String)
  | int (n : Int)
  | strList (l : List String)
deriving DecidableEq

namespace DatabaseService

/-- `DatabaseService.get_show_by_id`: `WHERE s.show_id = %s` (first row). -/
def get_show_by_id (db : Database) (showId : String) : Option ShowRow :=
  db.shows.find? (fun s => s.show_id == showId)

/-- `DatabaseService.get_confirmed_seats_for_show`: union (with multiplicity,
as the Python list extend does) of `seat_ids` over rows with
`status = CONFIRMED` for the show. -/
def get_confirmed_seats_for_show (db : Database) (showId : String) : List String :=
  (db.orders.filter (fun o => o.show_id == showId && o.status == "CONFIRMED")).flatMap
    (fun o => o.seat_ids)

/-- `DatabaseService.get_order_by_id`: `WHERE o.order_id = %s` (first row; the
joined show, movie and theatre columns are carried by the row model). -/
def get_order_by_id (db : Database) (orderId : String) : Option OrderRow :=
  db.orders.find? (fun o => o.order_id == orderId)

/-- The named parameters of the INSERT in `DatabaseService.create_order`.
psycopg2 binds each `%(key)s` from the passed mapping and raises `KeyError`
for a key the mapping lacks, before any SQL reaches the server. -/
def orderInsertParamKeys : List String :=
  ["order_id", "hold_id", "user_id", "show_id", "movie_id", "theatre_id", "seat_ids",
   "customer_name", "customer_email", "customer_phone", "amount", "status",
   "created_at", "expires_at"]

/-- String value bound under key `k` of an order_data mapping. -/
def dictStr (d : List (String × DbValue)) (k : String) : String :=
  match d.lookup k with
  | some (.str s) => s
  | _ => ""

/-- Integer value bound under key `k`. -/
def dictInt (d : List (String × DbValue)) (k : String) : Int :=
  match d.lookup k with
  | some (.int n) => n
  | _ => 0

/-- String-list value bound under key `k`. -/
def dictStrList (d : List (String × DbValue)) (k : String) : List String :=
  match d.lookup k with
  | some (.strList l) => l
  | _ => []

/-- `DatabaseService.create_order`: bind the named parameters of the INSERT
from the mapping (KeyError — an `Except.error` — when one is missing), insert
the row, commit, and return the inserted `order_id`. -/
def create_order (db : Database) (d : List (String × DbValue)) :
    Except String (String × Database) :=
  match orderInsertParamKeys.find? (fun k => (d.lookup k).isNone) with
  | some k => .error ("KeyError: " ++ k)
  | none =>
    let row : OrderRow := {
      order_id := dictStr d "order_id"
      hold_id := dictStr d "hold_id"
      user_id := dictStr d "user_id"
      show_id := dictStr d "show_id"
      movie_id := dictStr d "movie_id"
      theatre_id := dictStr d "theatre_id"
      seat_ids := dictStrList d "seat_ids"
      customer_name := dictStr d "customer_name"
      customer_email := dictStr d "customer_email"
      customer_phone := dictStr d "customer_phone"
      amount := dictInt d "amount"
      status := dictStr d "status"
      ticket_code := none
      created_at := dictInt d "created_at"
      expires_at := dictInt d "expires_at"
      updated_at := none }
    .ok (row.order_id, { db with orders := db.orders ++ [row] })

/-- `DatabaseService.confirm_order_payment`: the compare-and-set
`UPDATE orders SET status = CONFIRMED, ticket_code, updated_at WHERE
order_id = %s AND status = PAYMENT_PENDING`; returns whether the affected row
count was positive, together with the updated table. -/
def confirm_order_payment (db : Database) (orderId ticketCode : String) (now : Int) :
    Bool × Database :=
  let hit := fun (o : OrderRow) => o.order_id == orderId && o.status == "PAYMENT_PENDING"
  let rowsAffected := db.orders.countP hit
  let updated := db.orders.map (fun o =>
    if hit o then { o with status := "CONFIRMED", ticket_code := some ticketCode,
                           updated_at := some now }
    else o)
  (decide (0 < rowsAffected), { db with orders := updated })

end DatabaseService

/-- Identity extraction shared by the holds and orders lambda handlers:
`headers.get("x-user-id", "test-user-123")`. -/
def extract_user_id (headers : List (String × String)) : String :=
  (headers.lookup "x-user-id").getD "test-user-123"

/-- Response of a handler: an HTTP 200 with a typed payload, or an error status
with the message of its JSON error body. -/
inductive HttpResult (α : Type) where
  | ok (data : α)
  | err (status : Nat) (msg : String)
deriving DecidableEq

/-- The mutable backends a handler touches. -/
structure SystemState where
  db : Database
  locks : RedisService.LockStore
  holds : RedisService.HoldStore

/-- Success payload of POST /holds (handlers/holds.py response_data).  The
handler crashes before building it (see `HoldsHandler.create_hold`), so no
value of this type is ever produced. -/
structure CreateHoldOk where
  holdId : String
  showId : String
  seatIds : List String
  status : String
  expiresAt : Int
deriving DecidableEq

/-- Success payload of POST /holds/release; likewise never produced. -/
structure ReleaseHoldOk where
  holdId : String
  status : String
  releasedSeats : List String
  message : String
deriving DecidableEq

/-- Success payload of POST /orders. -/
structure CreateOrderOk where
  orderId : String
  showId : String
  seatIds : List String
  amount : Int
  status : String
  customer : Customer
  movieTitle : String
  theatreName : String
  showTime : Option Int
  createdAt : Int
  expiresAt : Int
deriving DecidableEq

/-- Success payload of POST /orders/confirm-payment. -/
structure ConfirmPaymentOk where
  orderId : String
  status : String
  ticketCode : String
  message : String
deriving DecidableEq

/-- Seat descriptor of the mock layout (handlers/seats.py). -/
structure SeatInfo where
  seatId : String
  row : String
  number : Nat
  seatType : String
deriving DecidableEq

/-- Seatmap payload of GET /shows/seatmap (handlers/seats.py seatmap_data). -/
structure SeatmapOk where
  showId : String
  movieTitle : String
  theatreName : String
  startTime : Option Int
  price : Int
  layout : List SeatInfo
  unavailableSeatIds : List String
  heldSeatIds : List String
deriving DecidableEq

namespace HoldsHandler

/-- `get_permanently_unavailable_seats` (handlers/holds.py): a static list. -/
def get_permanently_unavailable_seats (_showId : String) : List String :=
  ["A5", "B10", "C8"]

/-- The show-started guard `show_time and now >= show_time`. -/
def showStarted (sh : ShowRow) (now : Int) : Bool :=
  match sh.start_time with
  | some t => decide (t ≤ now)
  | none => false

/-- `create_hold` (handlers/holds.py) on a parsed body, with `holdId` the UUID
`str(uuid.uuid4())` generates and `now` the wall clock.  After storing the hold
the handler calls `redis_service.delete_key`, a method `RedisService` does not
define; the `AttributeError` is caught by the blanket `except` and surfaces as
a 500 — after the seat locks and the hold record were already written. -/
def create_hold (showId : String) (seatIds : List String) (quantity : Int)
    (userId holdId : String) (now : Int) (st : SystemState) :
    HttpResult CreateHoldOk × SystemState :=
  match BMSValidator.validate_hold_request showId seatIds quantity with
  | .error msg => (.err 400 msg, st)
  | .ok =>
    match DatabaseService.get_show_by_id st.db showId with
    | none => (.err 404 "Show not found", st)
    | some sh =>
      if showStarted sh now then
        (.err 400 "Cannot book seats for a show that has already started", st)
      else
        let permanentlyUnavailable := get_permanently_unavailable_seats showId
        let confirmedSeats := DatabaseService.get_confirmed_seats_for_show st.db showId
        let allUnavailable := permanentlyUnavailable ++ confirmedSeats
        let unavailableSeats := seatIds.filter (fun s => allUnavailable.contains s)
        if unavailableSeats ≠ [] then
          let bookedSeats := unavailableSeats.filter (fun s => confirmedSeats.contains s)
          if bookedSeats ≠ [] then
            (.err 409 ("Seats already booked: " ++ String.intercalate ", " bookedSeats), st)
          else
            (.err 400 ("Seats are unavailable: " ++ String.intercalate ", " unavailableSeats), st)
        else
          let lockRun := RedisService.lock_seats_atomic st.locks showId userId seatIds holdId
            BMS.HOLD_TTL_SECONDS
          match lockRun.1 with
          | .seatTaken seat =>
            (.err 409 ("Seat " ++ seat ++ " is no longer available"), { st with locks := lockRun.2 })
          | .ok _ _ _ =>
            let holdData : RedisService.HoldData := {
              hold_id := holdId
              show_id := showId
              user_id := userId
              seat_ids := seatIds
              quantity := quantity
              status := "HELD"
              created_at := now
              expires_at := now + BMS.HOLD_TTL_SECONDS }
            let holds2 := RedisService.store_hold st.holds now holdData
            (.err 500 "Failed to create hold", { st with locks := lockRun.2, holds := holds2 })

/-- `release_hold` (handlers/holds.py).  The guards run in source order; after
the seats are released and the hold is rewritten with status RELEASED (via
`store_hold`, hence with a fresh full TTL), the call to the nonexistent
`redis_service.delete_key` raises and the handler answers 500. -/
def release_hold (holdId userId : String) (now : Int) (st : SystemState) :
    HttpResult ReleaseHoldOk × SystemState :=
  if !BMSValidator.validate_uuid holdId then (.err 400 "Invalid hold ID format", st)
  else
    match RedisService.get_hold st.holds now holdId with
    | none => (.err 404 "Hold not found or expired", st)
    | some hd =>
      if hd.user_id ≠ userId then (.err 403 "Unauthorized", st)
      else if hd.status = "RELEASED" then (.err 400 "Hold is already released", st)
      else if now > hd.expires_at then (.err 400 "Hold has already expired", st)
      else
        let rel := RedisService.release_seats_atomic st.locks hd.show_id userId hd.seat_ids
        let holds2 := RedisService.store_hold st.holds now { hd with status := "RELEASED" }
        (.err 500 "Failed to release hold", { st with locks := rel.1, holds := holds2 })

end HoldsHandler

namespace OrdersHandler

/-- `ticket_code = "BMS" + order_id[:8].upper()` (handlers/orders.py). -/
def ticket_code (orderId : String) : String :=
  "BMS" ++ BMS.pyUpper (String.mk (orderId.data.take 8))

/-- The order_data mapping `create_order` (handlers/orders.py) builds for the
database INSERT.  It binds eleven keys; the INSERT of
`DatabaseService.create_order` requires fourteen — `hold_id`, `movie_id` and
`theatre_id` are absent. -/
def order_data_of (orderId userId : String) (hd : RedisService.HoldData) (c : Customer)
    (amount now expiresAt : Int) : List (String × DbValue) :=
  [("order_id", .str orderId),
   ("user_id", .str userId),
   ("show_id", .str hd.show_id),
   ("seat_ids", .strList hd.seat_ids),
   ("customer_name", .str c.name),
   ("customer_email", .str c.email),
   ("customer_phone", .str c.phone),
   ("amount", .int amount),
   ("status", .str "PAYMENT_PENDING"),
   ("created_at", .int now),
   ("expires_at", .int expiresAt)]

/-- `create_order` (handlers/orders.py) on a parsed body, with `orderId` the
generated UUID.  When `DatabaseService.create_order` fails (here: the KeyError
of the missing INSERT parameters), the handler compensates by re-storing the
hold (full TTL) and answers 500. -/
def create_order (holdId : String) (customer : Customer) (userId orderId : String)
    (now : Int) (st : SystemState) : HttpResult CreateOrderOk × SystemState :=
  match BMSValidator.validate_order_request holdId customer with
  | .error msg => (.err 400 msg, st)
  | .ok =>
    match RedisService.get_hold st.holds now holdId with
    | none => (.err 404 "Hold not found or expired", st)
    | some hd =>
      if hd.user_id ≠ userId then (.err 403 "Unauthorized", st)
      else if hd.status ≠ "HELD" then
        (.err 400 ("Cannot create order from hold with status: " ++ hd.status), st)
      else if now > hd.expires_at then (.err 400 "Hold has expired", st)
      else
        match DatabaseService.get_show_by_id st.db hd.show_id with
        | none => (.err 404 "Show not found", st)
        | some sh =>
          let seatCount : Int := hd.seat_ids.length
          let pricePerSeat : Int := sh.price.getD 0
          let totalAmount := seatCount * pricePerSeat
          let orderExpiresAt := now + BMS.ORDER_TTL_SECONDS
          let orderData := order_data_of orderId userId hd customer totalAmount now orderExpiresAt
          match DatabaseService.create_order st.db orderData with
          | .error _ =>
            (.err 500 "Failed to create order",
             { st with holds := RedisService.store_hold st.holds now hd })
          | .ok (createdId, db2) =>
            if createdId ≠ orderId then (.err 500 "Failed to create order", { st with db := db2 })
            else
              (.ok {
                orderId := orderId
                showId := hd.show_id
                seatIds := hd.seat_ids
                amount := totalAmount
                status := "PAYMENT_PENDING"
                customer := customer
                movieTitle := sh.movie_title
                theatreName := sh.theatre_name
                showTime := sh.start_time
                createdAt := now
                expiresAt := orderExpiresAt },
               { st with db := db2, holds := RedisService.delete_hold st.holds holdId })

/-- `confirm_payment` (handlers/orders.py).  The handler reads the order, then
later runs the conditional UPDATE; another worker may commit in between, so the
embedding takes the database snapshot each of the two steps sees: `dbRead` for
`get_order_by_id`, `dbCas` for `confirm_order_payment`.  The returned database
is the one after the UPDATE step.  A sequential run is the case
`dbRead = dbCas`. -/
def confirm_payment (orderId userId : String) (now : Int) (dbRead dbCas : Database)
    (locks : RedisService.LockStore) :
    HttpResult ConfirmPaymentOk × Database × RedisService.LockStore :=
  if !BMSValidator.validate_uuid orderId then (.err 400 "Invalid order ID format", dbCas, locks)
  else
    match DatabaseService.get_order_by_id dbRead orderId with
    | none => (.err 404 "Order not found", dbCas, locks)
    | some order =>
      if order.user_id ≠ userId then (.err 403 "Unauthorized", dbCas, locks)
      else if order.status ≠ "PAYMENT_PENDING" then
        (.err 400 ("Cannot confirm payment for order with status: " ++ order.status),
         dbCas, locks)
      else if now > order.expires_at then (.err 400 "Order has expired", dbCas, locks)
      else
        let tc := ticket_code orderId
        let cas := DatabaseService.confirm_order_payment dbCas orderId tc now
        if !cas.1 then (.err 500 "Failed to confirm payment", cas.2, locks)
        else
          let rel := RedisService.release_seats_atomic locks order.show_id userId order.seat_ids
          (.ok {
            orderId := orderId
            status := "CONFIRMED"
            ticketCode := tc
            message := "Payment confirmed successfully. Your tickets have been booked!" },
           cas.2, rel.1)

end OrdersHandler

namespace SeatsHandler

/-- `generate_mock_seat_layout` (handlers/seats.py): rows A-E, seats 1-8. -/
def generate_mock_seat_layout : List SeatInfo :=
  ["A", "B", "C", "D", "E"].flatMap fun r =>
    (List.range 8).map fun n =>
      { seatId := r ++ toString (n + 1), row := r, number := n + 1, seatType := "regular" }

/-- `get_seatmap` (handlers/seats.py, the deployed seats handler).  The handler
hard-codes `confirmed_seats = []` and `locked_seats = []` — the database and
Redis are not consulted for availability — and it neither reads nor writes the
seatmap cache.  `movieTitle` and `theatreName` are read with `show.get("title")`
and `show.get("name")`, keys absent from the row `get_show_by_id` returns, so
both default to the empty string. -/
def get_seatmap (showId : String) (db : Database) : HttpResult SeatmapOk :=
  if !BMSValidator.validate_uuid showId then .err 400 "Invalid show ID format"
  else
    match DatabaseService.get_show_by_id db showId with
    | none => .err 404 "Show not found"
    | some sh =>
      let confirmedSeats : List String := []
      let lockedSeats : List String := []
      let unavailableSeats := (confirmedSeats ++ lockedSeats).eraseDups
      .ok {
        showId := showId
        movieTitle := ""
        theatreName := ""
        startTime := sh.start_time
        price := sh.price.getD 0
        layout := generate_mock_seat_layout
        unavailableSeatIds := unavailableSeats
        heldSeatIds := lockedSeats }

end SeatsHandler

/-- Claim-side predicate: the string begins with `BMS` followed by exactly eight
uppercase hexadecimal characters. -/
def ticketCodeWellFormed (s : String) : Bool :=
  match s.data with
  | b :: m :: s3 :: rest =>
    decide (b = 'B') && decide (m = 'M') && decide (s3 = 'S') &&
      decide (rest.length = 8) && rest.all isUpperHex
  | _ => false

/-- Unavailable-seats field of a seatmap response, when it is a 200. -/
def seatmap_unavailable : HttpResult SeatmapOk → Option (List String)
  | .ok p => some p.unavailableSeatIds
  | .err _ _ => none

/-- Held-seats field of a seatmap response, when it is a 200. -/
def seatmap_held : HttpResult SeatmapOk → Option (List String)
  | .ok p => some p.heldSeatIds
  | .err _ _ => none

/-! Concrete fixtures used by counterexamples and witnesses. -/

/-- An empty seat-lock keyspace. -/
def emptyLocks : RedisService.LockStore := fun _ => none

/-- An empty database. -/
def emptyDb : Database := { shows := [], orders := [] }

/-- A lock store holding exactly one seat lock, written as the lock script
writes it. -/
def singleLock (showId seatId userId holdId : String) (ttl : Int) : RedisService.LockStore :=
  fun k => if k = RedisService.seatLockKey showId seatId then
    some ⟨RedisService.lockValue userId holdId, ttl⟩ else none

/-- A hold store holding exactly one hold record, expiring at `exp`. -/
def singleHold (hd : RedisService.HoldData) (exp : Int) : RedisService.HoldStore :=
  fun k => if k = RedisService.holdKey hd.hold_id then some ⟨hd, exp⟩ else none

/-- Seat A1 of show-1 locked by user-1 under hold-1. -/
def demoLocks : RedisService.LockStore := singleLock "show-1" "A1" "user-1" "hold-1" 300

/-- A well-formed holdId. -/
def fxHoldId : String := "22222222-2222-4222-8222-222222222222"

/-- A well-formed showId. -/
def fxShowId : String := "33333333-3333-4333-8333-333333333333"

/-- A well-formed generated orderId. -/
def fxOrderId : String := "44444444-4444-4444-8444-444444444444"

/-- Another well-formed orderId, with letters among its first eight characters. -/
def fxOrderId2 : String := "550e8400-e29b-41d4-a716-446655440099"

/-- A show row: future start time, price 150. -/
def fxShow : ShowRow := {
  show_id := fxShowId
  movie_id := "m-1"
  theatre_id := "t-1"
  start_time := some 10000
  price := some 150
  status := "ACTIVE"
  theatre_name := "PVR Phoenix"
  movie_title := "Inception" }

/-- A live HELD hold of user-1 over A1, A2 (created at 0, expires at 300). -/
def fxHold : RedisService.HoldData := {
  hold_id := fxHoldId
  show_id := fxShowId
  user_id := "user-1"
  seat_ids := ["A1", "A2"]
  quantity := 2
  status := "HELD"
  created_at := 0
  expires_at := 300 }

/-- A valid customer block. -/
def fxCustomer : Customer := { name := "John Doe", email := "john@example.com", phone := "9876543210" }

/-- State for the create-order scenario: the show exists, no order yet, the
hold record is live. -/
def fxOrderState : SystemState := {
  db := { shows := [fxShow], orders := [] }
  locks := emptyLocks
  holds := singleHold fxHold 300 }

/-- A PAYMENT_PENDING order of user-1 (created at 0, expires at 500). -/
def fxPendingOrder : OrderRow := {
  order_id := fxOrderId
  hold_id := fxHoldId
  user_id := "user-1"
  show_id := fxShowId
  movie_id := "m-1"
  theatre_id := "t-1"
  seat_ids := ["A1", "A2"]
  customer_name := "John Doe"
  customer_email := "john@example.com"
  customer_phone := "9876543210"
  amount := 300
  status := "PAYMENT_PENDING"
  ticket_code := none
  created_at := 0
  expires_at := 500
  updated_at := none }

/-- Database snapshot the confirm-payment read step sees: the order still
PAYMENT_PENDING. -/
def fxDbRead : Database := { shows := [fxShow], orders := [fxPendingOrder] }

/-- Database snapshot at the compare-and-set: a concurrent confirmation has
already transitioned the order. -/
def fxDbCas : Database := {
  shows := [fxShow]
  orders := [{ fxPendingOrder with
    status := "CONFIRMED", ticket_code := some "BMS44444444", updated_at := some 50 }] }

/-- A CONFIRMED order over A1, A2 for the seatmap scenario. -/
def fxConfirmedOrder : OrderRow :=
  { fxPendingOrder with status := "CONFIRMED", ticket_code := some "BMS44444444" }

/-- Database for the seatmap scenario: the show exists and an order for
A1, A2 is CONFIRMED. -/
def fxSeatmapDb : Database := { shows := [fxShow], orders := [fxConfirmedOrder] }

/-- A hold for the release scenario (created at 0, expires at 300). -/
def fxReleaseHold : RedisService.HoldData := { fxHold with show_id := "show-1", seat_ids := ["A1"], quantity := 1 }

/-- State for the release scenario: hold live, its seat lock in place. -/
def fxReleaseState : SystemState := {
  db := emptyDb
  locks := singleLock "show-1" "A1" "user-1" fxHoldId 300
  holds := singleHold fxReleaseHold 300 }

/-- The pending order under the second orderId, for a successful confirmation. -/
def fxPendingOrder2 : OrderRow := { fxPendingOrder with order_id := fxOrderId2 }

/-- Database containing only that order. -/
def fxDb2 : Database := { shows := [], orders := [fxPendingOrder2] }

/-- The payload a successful confirmation of `fxOrderId2` returns. -/
def fxConfirmPayload : ConfirmPaymentOk := {
  orderId := fxOrderId2
  status := "CONFIRMED"
  ticketCode := OrdersHandler.ticket_code fxOrderId2
  message := "Payment confirmed successfully. Your tickets have been booked!" }

/-- A hold owned by the default (header-less) identity. -/
def fxDefaultHold : RedisService.HoldData := { fxHold with user_id := "test-user-123" }

/-- An order owned by the default (header-less) identity. -/
def fxDefaultOrder : OrderRow := { fxPendingOrder with user_id := "test-user-123" }

/-- Headers of a request that carries no x-user-id. -/
def fxHeaders : List (String × String) := [("content-type", "application/json")]

/-! Characterization of the two Lua scripts. -/

open RedisService in
/-- Phase 1 of the lock script returns exactly the first seat, in input order,
whose conflict test fires. -/
theorem findTakenSeat_eq (st : RedisService.LockStore) (showId userId : String)
    (seatIds : List String) :
    RedisService.findTakenSeat st showId userId seatIds =
      seatIds.find? (RedisService.seatConflicts st showId userId) := by
  induction seatIds with
  | nil => rfl
  | cons s rest ih =>
    cases hst : st (seatLockKey showId s) with
    | none =>
      have hc : seatConflicts st showId userId s = false := by
        unfold seatConflicts; rw [hst]
      rw [List.find?_cons_of_neg _ (by simp [hc])]
      simp only [findTakenSeat, hst]
      exact ih
    | some e =>
      by_cases hp : parseOwner e.value = some userId
      · have hc : seatConflicts st showId userId s = false := by
          unfold seatConflicts; rw [hst]; simp [hp]
        rw [List.find?_cons_of_neg _ (by simp [hc])]
        simp only [findTakenSeat, hst, if_pos hp]
        exact ih
      · have hc : seatConflicts st showId userId s = true := by
          unfold seatConflicts; rw [hst]; simp [hp]
        rw [List.find?_cons_of_pos _ hc]
        simp only [findTakenSeat, hst, if_neg hp]

open RedisService in
/-- Phase 2 of the lock script, pointwise: exactly the requested keys get the
new value and TTL; every other key keeps its old entry. -/
theorem writeLocks_apply (showId lockVal : String) (ttl : Int) (seatIds : List String)
    (st : RedisService.LockStore) (k : String) :
    RedisService.writeLocks showId lockVal ttl seatIds st k =
      if ∃ s ∈ seatIds, RedisService.seatLockKey showId s = k then some ⟨lockVal, ttl⟩
      else st k := by
  induction seatIds generalizing st with
  | nil => simp [writeLocks]
  | cons s rest ih =>
    simp only [writeLocks]
    rw [ih]
    by_cases hr : ∃ s2 ∈ rest, seatLockKey showId s2 = k
    · simp [List.exists_mem_cons_iff, hr]
    · by_cases hk : seatLockKey showId s = k
      · simp [List.exists_mem_cons_iff, hr, hk]
      · simp [List.exists_mem_cons_iff, hr, hk, Ne.symm hk]

open RedisService in
/-- The lock script in closed form: either the first conflicting seat is named
and the store is untouched, or every requested key is written. -/
theorem lock_seats_atomic_eq (st : RedisService.LockStore) (showId userId : String)
    (seatIds : List String) (holdId : String) (ttl : Int) :
    RedisService.lock_seats_atomic st showId userId seatIds holdId ttl =
      match seatIds.find? (RedisService.seatConflicts st showId userId) with
      | some seatId => (.seatTaken seatId, st)
      | none =>
        (.ok holdId seatIds ttl,
         fun k => if ∃ s ∈ seatIds, RedisService.seatLockKey showId s = k
                  then some ⟨RedisService.lockValue userId holdId, ttl⟩ else st k) := by
  unfold lock_seats_atomic
  rw [findTakenSeat_eq]
  cases hf : seatIds.find? (seatConflicts st showId userId) with
  | some s => rfl
  | none =>
    exact congrArg (Prod.mk (LockResult.ok holdId seatIds ttl))
      (funext fun k => writeLocks_apply showId (lockValue userId holdId) ttl seatIds st k)

open RedisService in
/-- Seat-lock keys of one show separate seats: the prefix of the key is fixed,
so the key determines the seat. -/
theorem seatLockKey_inj (showId : String) (a b : String)
    (h : RedisService.seatLockKey showId a = RedisService.seatLockKey showId b) : a = b := by
  unfold seatLockKey at h
  have hd := congrArg String.data h
  simp only [String.data_append] at hd
  have hab := List.append_cancel_left hd
  cases a; cases b; simp_all

open RedisService in
/-- The release script, state component: a requested seat whose lock the caller
owns is deleted; everything else is untouched. -/
theorem releaseSeatsGo_fst (showId userId : String) (seatIds : List String)
    (st : RedisService.LockStore) (k : String) :
    (RedisService.releaseSeatsGo showId userId seatIds st).1 k =
      if (∃ s ∈ seatIds, RedisService.seatLockKey showId s = k) ∧
          RedisService.lockOwnedAt st k userId = true then none
      else st k := by
  induction seatIds generalizing st with
  | nil => simp [releaseSeatsGo]
  | cons s rest ih =>
    simp only [releaseSeatsGo]
    cases hst : st (seatLockKey showId s) with
    | none =>
      rw [ih]
      by_cases hk : seatLockKey showId s = k
      · have hown : lockOwnedAt st k userId = false := by
          unfold lockOwnedAt; rw [← hk, hst]
        simp [List.exists_mem_cons_iff, hown]
      · simp [List.exists_mem_cons_iff, hk]
    | some e =>
      dsimp only
      by_cases hp : parseOwner e.value = some userId
      · rw [if_pos hp]
        have hres := ih (fun k2 => if k2 = seatLockKey showId s then none else st k2)
        simp only [] at hres ⊢
        rw [hres]
        by_cases hk : seatLockKey showId s = k
        · have hown : lockOwnedAt st k userId = true := by
            unfold lockOwnedAt; rw [← hk, hst]; simp [hp]
          have hdel : (if k = seatLockKey showId s then none else st k) = none := by
            simp [hk.symm]
          have hown2 : lockOwnedAt (fun k2 => if k2 = seatLockKey showId s then none else st k2)
              k userId = false := by
            unfold lockOwnedAt; simp [hk.symm]
          simp [List.exists_mem_cons_iff, hown, hown2, hdel, hk]
        · have hkeep : (if k = seatLockKey showId s then none else st k) = st k :=
            if_neg (fun h => hk (Eq.symm h))
          have hown2 : lockOwnedAt (fun k2 => if k2 = seatLockKey showId s then none else st k2)
              k userId = lockOwnedAt st k userId := by
            unfold lockOwnedAt; dsimp only; rw [hkeep]
          rw [hown2, hkeep]
          simp [List.exists_mem_cons_iff, hk]
      · rw [if_neg hp]
        rw [ih]
        by_cases hk : seatLockKey showId s = k
        · have hown : lockOwnedAt st k userId = false := by
            unfold lockOwnedAt; rw [← hk, hst]; simp [hp]
          simp [List.exists_mem_cons_iff, hown]
        · simp [List.exists_mem_cons_iff, hk]

open RedisService in
/-- The release script, released-list component: a seat is reported released
exactly when it was requested and its lock was owned by the caller. -/
theorem releaseSeatsGo_mem (showId userId : String) (seatIds : List String)
    (st : RedisService.LockStore) (x : String) :
    x ∈ (RedisService.releaseSeatsGo showId userId seatIds st).2 ↔
      x ∈ seatIds ∧ RedisService.lockOwnedAt st (RedisService.seatLockKey showId x) userId = true := by
  induction seatIds generalizing st with
  | nil => simp [releaseSeatsGo]
  | cons s rest ih =>
    simp only [releaseSeatsGo]
    cases hst : st (seatLockKey showId s) with
    | none =>
      rw [ih]
      constructor
      · rintro ⟨hx, hown⟩
        exact ⟨List.mem_cons_of_mem _ hx, hown⟩
      · rintro ⟨hx, hown⟩
        rcases List.mem_cons.mp hx with rfl | hx2
        · exfalso
          unfold lockOwnedAt at hown
          rw [hst] at hown
          exact Bool.false_ne_true hown
        · exact ⟨hx2, hown⟩
    | some e =>
      dsimp only
      by_cases hp : parseOwner e.value = some userId
      · rw [if_pos hp]
        simp only [List.mem_cons]
        rw [ih]
        by_cases hx : x = s
        · subst hx
          have hown : lockOwnedAt st (seatLockKey showId x) userId = true := by
            unfold lockOwnedAt; rw [hst]; simp [hp]
          simp [hown]
        · have hkey : seatLockKey showId x ≠ seatLockKey showId s :=
            fun h => hx (seatLockKey_inj showId x s h)
          have hown2 : lockOwnedAt (fun k2 => if k2 = seatLockKey showId s then none else st k2)
              (seatLockKey showId x) userId = lockOwnedAt st (seatLockKey showId x) userId := by
            unfold lockOwnedAt; simp [hkey]
          rw [hown2]
          simp [hx]
      · rw [if_neg hp]
        rw [ih]
        by_cases hx : x = s
        · subst hx
          have hown : lockOwnedAt st (seatLockKey showId x) userId = false := by
            unfold lockOwnedAt; rw [hst]; simp [hp]
          simp [hown]
        · simp [hx]

/-- Claim C1: the acquire script is all-or-nothing.  If every requested seat is
free or already owned by the caller (no seat passes the conflict test:
`find?` is `none`), every requested key is written with the value
`userId:holdId` and the given TTL and the reply is ok; otherwise the store is
returned untouched and the reply is a conflict naming the first seat, in input
order, whose existing lock has an owner different from the caller (the owner
of a lock is the userId component `parseOwner` reads back from the stored
`userId:holdId` value). -/
theorem claim1_acquire_all_or_nothing (st : RedisService.LockStore) (showId userId : String)
    (seatIds : List String) (holdId : String) (ttl : Int) :
    RedisService.lock_seats_atomic st showId userId seatIds holdId ttl =
      match seatIds.find? (RedisService.seatConflicts st showId userId) with
      | some seatId => (.seatTaken seatId, st)
      | none =>
        (.ok holdId seatIds ttl,
         fun k => if ∃ s ∈ seatIds, RedisService.seatLockKey showId s = k
                  then some ⟨RedisService.lockValue userId holdId, ttl⟩ else st k) :=
  lock_seats_atomic_eq st showId userId seatIds holdId ttl

/-- Claim C3: the release script deletes a requested seat's lock exactly when
that lock exists and its stored owner is the caller (a lock of another user,
or an absent lock, is left as it is, with no error), and the released list
holds exactly the requested seats whose lock the caller owned. -/
theorem claim3_release_only_owner (st : RedisService.LockStore) (showId userId : String)
    (seatIds : List String) :
    (∀ k, (RedisService.release_seats_atomic st showId userId seatIds).1 k =
        if (∃ s ∈ seatIds, RedisService.seatLockKey showId s = k) ∧
            RedisService.lockOwnedAt st k userId = true then none
        else st k) ∧
    (∀ x, x ∈ (RedisService.release_seats_atomic st showId userId seatIds).2 ↔
        x ∈ seatIds ∧
          RedisService.lockOwnedAt st (RedisService.seatLockKey showId x) userId = true) :=
  ⟨fun k => releaseSeatsGo_fst showId userId seatIds st k,
   fun x => releaseSeatsGo_mem showId userId seatIds st x⟩

/-- Claim C6 counterexample: seat A1 of show-1 is locked by user-1 under
hold-1 and the lock is live; a second acquire by the same user-1 under the
fresh hold-2 succeeds and overwrites the stored value with `user-1:hold-2`,
so the stored (userId, holdId) pair of a live lock does change. -/
theorem claim6_counterexample :
    (RedisService.lock_seats_atomic demoLocks "show-1" "user-1" ["A1"] "hold-2" 300).1 =
        RedisService.LockResult.ok "hold-2" ["A1"] 300 ∧
    (RedisService.lock_seats_atomic demoLocks "show-1" "user-1" ["A1"] "hold-2" 300).2
        (RedisService.seatLockKey "show-1" "A1") =
      some ⟨RedisService.lockValue "user-1" "hold-2", 300⟩ ∧
    demoLocks (RedisService.seatLockKey "show-1" "A1") =
      some ⟨RedisService.lockValue "user-1" "hold-1", 300⟩ ∧
    RedisService.lockValue "user-1" "hold-2" ≠ RedisService.lockValue "user-1" "hold-1" := by
  refine ⟨by decide, by decide, by decide, by decide⟩

open RedisService in
/-- Claim C6 amended: the userId component of a live lock never changes — an
acquire leaves a lock it does not own untouched (on any conflict the whole
store is untouched), and it overwrites a lock only when that lock's stored
owner is the caller itself, in which case the value becomes the caller's
`userId:holdId` with the caller's (possibly different) holdId and a fresh
TTL. -/
theorem claim6_amended (st : RedisService.LockStore) (showId userId : String)
    (seatIds : List String) (holdId : String) (ttl : Int) (k : String)
    (e : RedisService.LockEntry) (hk : st k = some e) :
    (RedisService.lock_seats_atomic st showId userId seatIds holdId ttl).2 k = some e ∨
      (RedisService.parseOwner e.value = some userId ∧
       (RedisService.lock_seats_atomic st showId userId seatIds holdId ttl).2 k =
         some ⟨RedisService.lockValue userId holdId, ttl⟩) := by
  rw [lock_seats_atomic_eq]
  cases hf : seatIds.find? (seatConflicts st showId userId) with
  | some s => exact Or.inl hk
  | none =>
    by_cases hex : ∃ s ∈ seatIds, seatLockKey showId s = k
    · right
      constructor
      · obtain ⟨s, hs, hkey⟩ := hex
        have hc := List.find?_eq_none.mp hf s hs
        simp only [seatConflicts, hkey, hk] at hc
        simpa using hc
      · simp [hex]
    · left
      simp [hex, hk]

/-- Witness for the amended C6 at a concrete input: user-2 tries to acquire the
seat user-1 holds; the lock is left exactly as it was. -/
theorem claim6_amended_witness :
    (RedisService.lock_seats_atomic demoLocks "show-1" "user-2" ["A1"] "hold-9" 300).2
        (RedisService.seatLockKey "show-1" "A1") =
      some ⟨RedisService.lockValue "user-1" "hold-1", 300⟩ ∨
      (RedisService.parseOwner (RedisService.lockValue "user-1" "hold-1") = some "user-2" ∧
       (RedisService.lock_seats_atomic demoLocks "show-1" "user-2" ["A1"] "hold-9" 300).2
          (RedisService.seatLockKey "show-1" "A1") =
        some ⟨RedisService.lockValue "user-2" "hold-9", 300⟩) :=
  claim6_amended demoLocks "show-1" "user-2" ["A1"] "hold-9" 300
    (RedisService.seatLockKey "show-1" "A1") ⟨RedisService.lockValue "user-1" "hold-1", 300⟩
    (by decide)

/-- Claim C7 counterexample: a create-hold body whose seatIds list repeats A1
(quantity 2 matching its length) passes `validate_hold_request`, although the
claim says duplicate entries are rejected. -/
theorem claim7_counterexample :
    BMSValidator.validate_hold_request "550e8400-e29b-41d4-a716-446655440021" ["A1", "A1"] 2 =
      BMSValidator.Validation.ok ∧ ¬ (["A1", "A1"] : List String).Nodup :=
  ⟨by decide, by decide⟩

/-- Claim C7 amended: validation accepts exactly when the showId is a valid
UUID, seatIds is nonempty and well-formed, quantity equals the number of seats
and is at most 10 — duplicate-freedom of seatIds is not checked, so duplicates
pass; and a validation failure makes `create_hold` answer 400 with the
validator's message and leave the state untouched. -/
theorem claim7_amended_no_duplicate_check (showId : String) (seatIds : List String)
    (quantity : Int) :
    (BMSValidator.validate_hold_request showId seatIds quantity = BMSValidator.Validation.ok ↔
      BMSValidator.validate_uuid showId = true ∧ seatIds ≠ [] ∧
      BMSValidator.validate_seat_ids seatIds = true ∧ quantity = (seatIds.length : Int) ∧
      quantity ≤ 10) ∧
    (∀ msg userId holdId now st,
      BMSValidator.validate_hold_request showId seatIds quantity =
        BMSValidator.Validation.error msg →
      HoldsHandler.create_hold showId seatIds quantity userId holdId now st =
        (.err 400 msg, st)) := by
  constructor
  · unfold BMSValidator.validate_hold_request
    split_ifs with h1 h2 h3 h4 h5 <;>
      simp_all [Bool.not_eq_true', List.length_eq_zero, not_lt]
  · intro msg userId holdId now st h
    unfold HoldsHandler.create_hold
    rw [h]

/-! Character-level facts for the ticket-code format (claim C9). -/

/-- Round trip of `Char.ofNat` on the code points case conversion produces. -/
theorem charOfNat_toNat (n : Nat) (h : n < 55296) : (Char.ofNat n).toNat = n := by
  unfold Char.ofNat
  rw [dif_pos (Or.inl (by omega : n < 55296))]
  rfl

/-- `[A-Z]` as bounds on the code point. -/
theorem isUpperA_iff (c : Char) : isUpperA c = true ↔ 65 ≤ c.toNat ∧ c.toNat ≤ 90 := by
  simp only [isUpperA, Bool.and_eq_true, decide_eq_true_eq, Char.le_def, UInt32.le_def,
    BitVec.le_def]
  exact Iff.rfl

/-- `[a-z]` as bounds on the code point. -/
theorem isLowerA_iff (c : Char) : isLowerA c = true ↔ 97 ≤ c.toNat ∧ c.toNat ≤ 122 := by
  simp only [isLowerA, Bool.and_eq_true, decide_eq_true_eq, Char.le_def, UInt32.le_def,
    BitVec.le_def]
  exact Iff.rfl

/-- `[0-9a-f]` as bounds on the code point. -/
theorem hexLower_iff (c : Char) :
    hexLower c = true ↔ (48 ≤ c.toNat ∧ c.toNat ≤ 57) ∨ (97 ≤ c.toNat ∧ c.toNat ≤ 102) := by
  simp only [hexLower, isDigitA, Bool.or_eq_true, Bool.and_eq_true, decide_eq_true_eq,
    Char.le_def, UInt32.le_def, BitVec.le_def]
  exact Iff.rfl

/-- `[0-9A-F]` as bounds on the code point. -/
theorem isUpperHex_iff (c : Char) :
    isUpperHex c = true ↔ (48 ≤ c.toNat ∧ c.toNat ≤ 57) ∨ (65 ≤ c.toNat ∧ c.toNat ≤ 70) := by
  simp only [isUpperHex, isDigitA, Bool.or_eq_true, Bool.and_eq_true, decide_eq_true_eq,
    Char.le_def, UInt32.le_def, BitVec.le_def]
  exact Iff.rfl

/-- A character whose lowering is a lowercase hexadecimal digit uppercases to
an uppercase hexadecimal digit. -/
theorem upperChar_hex (c : Char) (h : hexLower (lowerChar c) = true) :
    isUpperHex (upperChar c) = true := by
  rw [isUpperHex_iff]
  rw [hexLower_iff] at h
  unfold lowerChar at h
  unfold upperChar
  by_cases hu : isUpperA c = true
  · rw [if_pos hu] at h
    rw [isUpperA_iff] at hu
    rw [charOfNat_toNat _ (by omega)] at h
    have hl : ¬ isLowerA c = true := by rw [isLowerA_iff]; omega
    rw [if_neg hl]
    omega
  · rw [if_neg hu] at h
    rw [isUpperA_iff] at hu
    by_cases hl : isLowerA c = true
    · rw [if_pos hl]
      rw [isLowerA_iff] at hl
      rw [charOfNat_toNat _ (by omega)]
      omega
    · rw [if_neg hl]
      rw [isLowerA_iff] at hl
      omega

/-- A validated UUID has at least eight characters, and each of its first eight
characters lowers to a lowercase hexadecimal digit. -/
theorem validate_uuid_first8 (v : String) (h : BMSValidator.validate_uuid v = true) :
    8 ≤ v.data.length ∧ ∀ c ∈ v.data.take 8, hexLower (lowerChar c) = true := by
  unfold BMSValidator.validate_uuid at h
  cases hu : BMSValidator.uuidScan (v.data.map lowerChar) with
  | none => rw [hu] at h; exact absurd h (by simp)
  | some r =>
    have h8 : ∃ r1, BMSValidator.takeHex 8 (v.data.map lowerChar) = some r1 := by
      cases h8 : BMSValidator.takeHex 8 (v.data.map lowerChar) with
      | none => rw [BMSValidator.uuidScan, h8] at hu; simp at hu
      | some r1 => exact ⟨r1, rfl⟩
    obtain ⟨r1, h8⟩ := h8
    unfold BMSValidator.takeHex at h8
    by_cases hc : ((v.data.map lowerChar).take 8).length = 8 ∧
        ((v.data.map lowerChar).take 8).all hexLower = true
    · obtain ⟨hlen, hall⟩ := hc
      rw [← List.map_take, List.all_map] at hall
      rw [← List.map_take, List.length_map, List.length_take] at hlen
      constructor
      · omega
      · intro c hcmem
        simpa using List.all_eq_true.mp hall c hcmem
    · rw [if_neg hc] at h8
      exact absurd h8 (by simp)

/-- The ticket code built from a validated orderId is `BMS` followed by exactly
eight uppercase hexadecimal characters. -/
theorem ticket_code_wf (v : String) (h : BMSValidator.validate_uuid v = true) :
    ticketCodeWellFormed (OrdersHandler.ticket_code v) = true := by
  obtain ⟨hlen, hhex⟩ := validate_uuid_first8 v h
  have hdata : (OrdersHandler.ticket_code v).data =
      'B' :: 'M' :: 'S' :: (v.data.take 8).map upperChar := by
    unfold OrdersHandler.ticket_code
    rw [String.data_append]
    rfl
  have hlen8 : ((v.data.take 8).map upperChar).length = 8 := by
    rw [List.length_map, List.length_take]
    omega
  have hall : ((v.data.take 8).map upperChar).all isUpperHex = true := by
    rw [List.all_map]
    exact List.all_eq_true.mpr (fun c hc => upperChar_hex c (hhex c hc))
  unfold ticketCodeWellFormed
  rw [hdata]
  simp [hlen8]
  refine ⟨hlen, fun x hx => ?_⟩
  rw [← List.map_take] at hx
  exact List.all_eq_true.mp hall x hx

/-- Claim C9: whenever confirm-payment succeeds, the ticket code of the payload
is `BMS` concatenated with the first eight characters of the orderId
uppercased, and (the orderId having passed the version-4 UUID validation on
this path) that code is `BMS` followed by eight uppercase hexadecimal
characters. -/
theorem claim9_ticket_code_format (orderId userId : String) (now : Int)
    (dbRead dbCas : Database) (locks : RedisService.LockStore) (p : ConfirmPaymentOk)
    (h : (OrdersHandler.confirm_payment orderId userId now dbRead dbCas locks).1 =
      HttpResult.ok p) :
    p.ticketCode = OrdersHandler.ticket_code orderId ∧
      ticketCodeWellFormed p.ticketCode = true := by
  unfold OrdersHandler.confirm_payment at h
  by_cases hv : BMSValidator.validate_uuid orderId = true
  · rw [if_neg (by simp [hv])] at h
    cases ho : DatabaseService.get_order_by_id dbRead orderId with
    | none => rw [ho] at h; exact absurd h (by simp)
    | some o =>
      rw [ho] at h
      dsimp only at h
      by_cases h1 : o.user_id ≠ userId
      · rw [if_pos h1] at h; exact absurd h (by simp)
      · rw [if_neg h1] at h
        by_cases h2 : o.status ≠ "PAYMENT_PENDING"
        · rw [if_pos h2] at h; exact absurd h (by simp)
        · rw [if_neg h2] at h
          by_cases h3 : now > o.expires_at
          · rw [if_pos h3] at h; exact absurd h (by simp)
          · rw [if_neg h3] at h
            by_cases h4 : (DatabaseService.confirm_order_payment dbCas orderId
                (OrdersHandler.ticket_code orderId) now).1 = true
            · rw [if_neg (by simp [h4])] at h
              simp only [HttpResult.ok.injEq] at h
              subst h
              exact ⟨rfl, ticket_code_wf orderId hv⟩
            · rw [if_pos (by simp [Bool.not_eq_true] at h4 ⊢; exact h4)] at h
              exact absurd h (by simp)
  · rw [if_pos (by simp [Bool.not_eq_true] at hv ⊢; exact hv)] at h
    exact absurd h (by simp)

/-- Witness for C9: confirming the concrete pending order under
`550e8400-e29b-41d4-a716-446655440099` yields that payload, whose ticket code
is well formed. -/
theorem claim9_witness :
    fxConfirmPayload.ticketCode = OrdersHandler.ticket_code fxOrderId2 ∧
      ticketCodeWellFormed fxConfirmPayload.ticketCode = true :=
  claim9_ticket_code_format fxOrderId2 "user-1" 100 fxDb2 fxDb2 emptyLocks fxConfirmPayload
    (by decide)

/-- Claim C2, the slip at an explicit input: a valid create-order request over
a live HELD hold of the caller, with the show present, still answers 500 — the
INSERT's named parameters `hold_id`, `movie_id`, `theatre_id` are missing from
the dict the handler builds, so psycopg2 raises KeyError, no Order row is
written, and the compensation re-stores the hold (with a fresh full TTL). -/
theorem claim2_create_order_key_error :
    (OrdersHandler.create_order fxHoldId fxCustomer "user-1" fxOrderId 100 fxOrderState).1 =
      HttpResult.err 500 "Failed to create order" ∧
    (OrdersHandler.create_order fxHoldId fxCustomer "user-1" fxOrderId 100
        fxOrderState).2.db.orders = [] ∧
    (OrdersHandler.create_order fxHoldId fxCustomer "user-1" fxOrderId 100 fxOrderState).2.holds
        (RedisService.holdKey fxHoldId) = some ⟨fxHold, 400⟩ ∧
    DatabaseService.create_order fxOrderState.db
        (OrdersHandler.order_data_of fxOrderId "user-1" fxHold fxCustomer 300 100 400) =
      Except.error "KeyError: hold_id" :=
  ⟨by decide, by decide, by decide, by rfl⟩

/-- Claim C4 counterexample: the read step sees the order PAYMENT_PENDING and
owned by the caller, the compare-and-set then affects zero rows (a concurrent
confirmation already transitioned the order); the handler answers the generic
server error 500 Failed to confirm payment — it performs no re-read and
returns no conflict-state response. -/
theorem claim4_counterexample :
    (OrdersHandler.confirm_payment fxOrderId "user-1" 100 fxDbRead fxDbCas emptyLocks).1 =
      HttpResult.err 500 "Failed to confirm payment" := by decide

/-- A compare-and-set that matches no row reports failure and leaves the table
unchanged. -/
theorem confirm_order_payment_zero (db : Database) (orderId tc : String) (now : Int)
    (h : db.orders.countP
        (fun o => o.order_id == orderId && o.status == "PAYMENT_PENDING") = 0) :
    DatabaseService.confirm_order_payment db orderId tc now = (false, db) := by
  unfold DatabaseService.confirm_order_payment
  dsimp only
  have hno := List.countP_eq_zero.mp h
  have hmap : db.orders.map (fun o =>
      if (o.order_id == orderId && o.status == "PAYMENT_PENDING") = true then
        { o with status := "CONFIRMED", ticket_code := some tc, updated_at := some now }
      else o) = db.orders := by
    conv_rhs => rw [← List.map_id db.orders]
    exact List.map_congr_left (fun o ho => by simp [hno o ho])
  rw [h, hmap]
  simp

/-- Claim C4 amended: the update is a compare-and-set conditioned on
`status = PAYMENT_PENDING`, and when it affects zero rows the handler answers
the generic 500 Failed to confirm payment without re-reading the order — no
conflict-state response is produced and the database is left as the
compare-and-set found it. -/
theorem claim4_amended_zero_rows_generic_500 (orderId userId : String) (now : Int)
    (dbRead dbCas : Database) (locks : RedisService.LockStore) (o : OrderRow)
    (hv : BMSValidator.validate_uuid orderId = true)
    (ho : DatabaseService.get_order_by_id dbRead orderId = some o)
    (hown : o.user_id = userId)
    (hstat : o.status = "PAYMENT_PENDING")
    (hexp : ¬ now > o.expires_at)
    (hzero : dbCas.orders.countP
        (fun r => r.order_id == orderId && r.status == "PAYMENT_PENDING") = 0) :
    OrdersHandler.confirm_payment orderId userId now dbRead dbCas locks =
      (HttpResult.err 500 "Failed to confirm payment", dbCas, locks) := by
  unfold OrdersHandler.confirm_payment
  rw [if_neg (by simp [hv]), ho]
  dsimp only
  rw [if_neg (by simp [hown]), if_neg (by simp [hstat]), if_neg hexp]
  rw [confirm_order_payment_zero dbCas orderId _ now hzero]
  simp

/-- Witness for the amended C4 at the concrete two-snapshot input. -/
theorem claim4_amended_witness :
    OrdersHandler.confirm_payment fxOrderId "user-1" 100 fxDbRead fxDbCas emptyLocks =
      (HttpResult.err 500 "Failed to confirm payment", fxDbCas, emptyLocks) :=
  claim4_amended_zero_rows_generic_500 fxOrderId "user-1" 100 fxDbRead fxDbCas emptyLocks
    fxPendingOrder (by decide) (by decide) (by decide) (by decide) (by decide) (by decide)

/-- Claim C5 counterexample: the database holds a CONFIRMED order for A1, A2 on
the show, yet the seatmap of handlers/seats.py reports
`unavailableSeatIds = []` (and `heldSeatIds = []`): confirmed seats do not
appear in the availability view. -/
theorem claim5_counterexample :
    DatabaseService.get_confirmed_seats_for_show fxSeatmapDb fxShowId = ["A1", "A2"] ∧
    seatmap_unavailable (SeatsHandler.get_seatmap fxShowId fxSeatmapDb) = some [] ∧
    seatmap_held (SeatsHandler.get_seatmap fxShowId fxSeatmapDb) = some [] :=
  ⟨by decide, by decide, by decide⟩

/-- Claim C5 amended: for every existing show, the deployed seatmap handler
returns `unavailableSeatIds = []` and `heldSeatIds = []` — it consults neither
the confirmed orders nor the seat locks (both stubbed to the empty list) and
involves no cache. -/
theorem claim5_amended_seatmap_stub_empty (showId : String) (db : Database) (sh : ShowRow)
    (hv : BMSValidator.validate_uuid showId = true)
    (hs : DatabaseService.get_show_by_id db showId = some sh) :
    seatmap_unavailable (SeatsHandler.get_seatmap showId db) = some [] ∧
    seatmap_held (SeatsHandler.get_seatmap showId db) = some [] := by
  unfold SeatsHandler.get_seatmap
  rw [if_neg (by simp [hv]), hs]
  exact ⟨rfl, rfl⟩

/-- Witness for the amended C5 at the concrete database. -/
theorem claim5_amended_witness :
    seatmap_unavailable (SeatsHandler.get_seatmap fxShowId fxSeatmapDb) = some [] ∧
    seatmap_held (SeatsHandler.get_seatmap fxShowId fxSeatmapDb) = some [] :=
  claim5_amended_seatmap_stub_empty fxShowId fxSeatmapDb fxShow (by decide) (by decide)

/-- Claim C8, the slip at an explicit input: releasing a live HELD hold of the
caller (created at 0, key expiring at 300) at time 100 rewrites the hold with
status RELEASED but a fresh full TTL — the rewritten key expires at 400, not
at the original instant 300 — and the handler then answers 500 because it
calls the nonexistent `redis_service.delete_key`; the seat lock itself was
released.  All hold fields other than `status` are unchanged. -/
theorem claim8_release_full_ttl_and_500 :
    (HoldsHandler.release_hold fxHoldId "user-1" 100 fxReleaseState).1 =
      HttpResult.err 500 "Failed to release hold" ∧
    fxReleaseState.holds (RedisService.holdKey fxHoldId) = some ⟨fxReleaseHold, 300⟩ ∧
    (HoldsHandler.release_hold fxHoldId "user-1" 100 fxReleaseState).2.holds
        (RedisService.holdKey fxHoldId) =
      some ⟨{ fxReleaseHold with status := "RELEASED" }, 400⟩ ∧
    (400 : Int) ≠ 300 ∧
    (HoldsHandler.release_hold fxHoldId "user-1" 100 fxReleaseState).2.locks
        (RedisService.seatLockKey "show-1" "A1") = none :=
  ⟨by decide, by decide, by decide, by decide, by decide⟩

/-- Claim C10: a request whose headers carry no x-user-id key runs as the fixed
identity test-user-123; two such callers obtain the same userId, so a hold or
an order created under the one identity satisfies the handlers ownership
comparison (`user_id == userId`) when the other caller presents it. -/
theorem claim10_default_user_id (h1 h2 : List (String × String))
    (hd : RedisService.HoldData) (od : OrderRow)
    (e1 : h1.lookup "x-user-id" = none) (e2 : h2.lookup "x-user-id" = none)
    (hh : hd.user_id = extract_user_id h1) (ho : od.user_id = extract_user_id h1) :
    extract_user_id h1 = "test-user-123" ∧ extract_user_id h2 = "test-user-123" ∧
    hd.user_id = extract_user_id h2 ∧ od.user_id = extract_user_id h2 := by
  have g1 : extract_user_id h1 = "test-user-123" := by
    unfold extract_user_id; rw [e1]; rfl
  have g2 : extract_user_id h2 = "test-user-123" := by
    unfold extract_user_id; rw [e2]; rfl
  refine ⟨g1, g2, ?_, ?_⟩
  · rw [hh, g1, g2]
  · rw [ho, g1, g2]

/-- Witness for C10 at concrete headers (one header map without the key, one
empty) and concrete hold and order rows. -/
theorem claim10_witness :
    extract_user_id fxHeaders = "test-user-123" ∧
    extract_user_id [] = "test-user-123" ∧
    fxDefaultHold.user_id = extract_user_id [] ∧
    fxDefaultOrder.user_id = extract_user_id [] :=
  claim10_default_user_id fxHeaders [] fxDefaultHold fxDefaultOrder (by decide) (by decide)
    (by decide) (by decide)

end BMS
